import Mathlib

/-!
# Verification of the esql_client command-line ES|QL client

Shallow embedding of the two source files of the repository:

* `cli.py`  — the interactive REPL: the `ESQLCompleter` completion provider,
  the `print_results` result formatter, and the session loop of `main`.
* `esql.py` — the one-shot CLI: `esql_query` (direct HTTP transport) and the
  environment handling of its `main`.

Text is modelled as `List Char` (ASCII); Python string primitives
(`str.split()`, `str.strip()`, `str.lower()`, `str.upper()`, `str.startswith`)
are embedded as executable Lean functions below.  External collaborators (the
Elasticsearch service, the HTTP stack, the prompt_toolkit line editor) are
modelled as explicit parameters: a completion-time index listing is a value of
`CatIndices`, the network is a function `Request → HttpOutcome`, the query
executor of the REPL is a function `List Char → ExecResult`, and keystrokes
at the prompt are a script `List PromptEvent`.
-/

namespace EsqlClient

/-- Python whitespace characters recognised by `str.split()` / `str.strip()`
(ASCII range: space, tab, newline, carriage return, vertical tab, form feed). -/
def isPySpace (c : Char) : Bool :=
  c = ' ' || c = '\t' || c = '\n' || c = '\r' || c = '\x0b' || c = '\x0c'

/-- Python `str.lower()` on a single ASCII character. -/
def pyLowerChar (c : Char) : Char :=
  match c with
  | 'A' => 'a' | 'B' => 'b' | 'C' => 'c' | 'D' => 'd' | 'E' => 'e'
  | 'F' => 'f' | 'G' => 'g' | 'H' => 'h' | 'I' => 'i' | 'J' => 'j'
  | 'K' => 'k' | 'L' => 'l' | 'M' => 'm' | 'N' => 'n' | 'O' => 'o'
  | 'P' => 'p' | 'Q' => 'q' | 'R' => 'r' | 'S' => 's' | 'T' => 't'
  | 'U' => 'u' | 'V' => 'v' | 'W' => 'w' | 'X' => 'x' | 'Y' => 'y'
  | 'Z' => 'z'
  | c => c

/-- Python `str.upper()` on a single ASCII character. -/
def pyUpperChar (c : Char) : Char :=
  match c with
  | 'a' => 'A' | 'b' => 'B' | 'c' => 'C' | 'd' => 'D' | 'e' => 'E'
  | 'f' => 'F' | 'g' => 'G' | 'h' => 'H' | 'i' => 'I' | 'j' => 'J'
  | 'k' => 'K' | 'l' => 'L' | 'm' => 'M' | 'n' => 'N' | 'o' => 'O'
  | 'p' => 'P' | 'q' => 'Q' | 'r' => 'R' | 's' => 'S' | 't' => 'T'
  | 'u' => 'U' | 'v' => 'V' | 'w' => 'W' | 'x' => 'X' | 'y' => 'Y'
  | 'z' => 'Z'
  | c => c

/-- Python `str.lower()`. -/
def pyLower (s : List Char) : List Char := s.map pyLowerChar

/-- Python `str.upper()`. -/
def pyUpper (s : List Char) : List Char := s.map pyUpperChar

/-- Python `str.strip()`: remove leading and trailing whitespace. -/
def pyStrip (s : List Char) : List Char :=
  ((s.dropWhile isPySpace).reverse.dropWhile isPySpace).reverse

/-- Helper for `pySplit`: `cur` holds the (reversed) current token. -/
def splitAux : List Char → List Char → List (List Char)
  | [], cur => if cur.isEmpty then [] else [cur.reverse]
  | c :: cs, cur =>
    if isPySpace c then
      if cur.isEmpty then splitAux cs [] else cur.reverse :: splitAux cs []
    else splitAux cs (c :: cur)

/-- Python `str.split()` with no argument: split on runs of whitespace,
dropping empty tokens. -/
def pySplit (s : List Char) : List (List Char) := splitAux s []

/-- Python `lst[-2:]`: the last two elements (the whole list when shorter). -/
def last2 {α : Type} (l : List α) : List α := l.drop (l.length - 2)

/-- Every token produced by `splitAux` contains no whitespace character,
provided the pending token `cur` contains none. -/
theorem splitAux_no_space (cs : List Char) : ∀ cur : List Char,
    (∀ c ∈ cur, isPySpace c = false) →
    ∀ tok ∈ splitAux cs cur, ∀ c ∈ tok, isPySpace c = false := by
  induction cs with
  | nil =>
    intro cur hcur tok htok c hc
    by_cases h : cur.isEmpty <;> simp [splitAux, h] at htok
    subst htok
    exact hcur c (List.mem_reverse.mp hc)
  | cons d ds ih =>
    intro cur hcur tok htok c hc
    by_cases hd : isPySpace d
    · by_cases h : cur.isEmpty
      · simp [splitAux, hd, h] at htok
        exact ih [] (by simp) tok htok c hc
      · simp [splitAux, hd, h] at htok
        rcases htok with htok | htok
        · subst htok
          exact hcur c (List.mem_reverse.mp hc)
        · exact ih [] (by simp) tok htok c hc
    · simp [splitAux, hd] at htok
      refine ih (d :: cur) ?_ tok htok c hc
      intro e he
      rcases List.mem_cons.mp he with he | he
      · subst he; exact eq_false_of_ne_true hd
      · exact hcur e he

/-- No token of a Python whitespace split contains a whitespace character. -/
theorem pySplit_no_space (s : List Char) :
    ∀ tok ∈ pySplit s, ∀ c ∈ tok, isPySpace c = false :=
  splitAux_no_space s [] (by simp)

/-- Sanity: split of `"FROM lo"` is `["FROM", "lo"]`. -/
example : pySplit ("FROM lo".toList) = ["FROM".toList, "lo".toList] := by decide

/-! ## Completion provider (`cli.py`, `ESQLCompleter`) -/

/-- The static keyword vocabulary `ESQL_KEYWORDS` of `cli.py`, in source order. -/
def ESQL_KEYWORDS : List String := [
  "FROM", "WHERE", "LIMIT", "GROUP BY", "HAVING", "ORDER BY", "ASC", "DESC",
  "SELECT", "AS", "ROW", "ENRICH", "DROP", "KEEP", "MV_EXPAND", "SORT",
  "SUBSTRING", "GROK", "DISSECT", "EVAL", "LOOKUP", "METADATA", "STATS",
  "AND", "OR", "NOT",
  "BETWEEN", "IN", "IS NULL", "IS NOT NULL", "LIKE", "RLIKE",
  "AVG", "COUNT", "SUM", "MIN", "MAX", "COUNT_DISTINCT", "FIRST", "LAST",
  "KURTOSIS", "MAD", "PERCENTILE", "PERCENTILE_RANK", "SKEWNESS",
  "STDDEV_POP", "SUM_OF_SQUARES", "VAR_POP", "VAR_SAMP",
  "BUCKET", "CATEGORIZE", "HISTOGRAM",
  "CASE", "COALESCE", "GREATEST", "LEAST",
  "DATE_DIFF", "DATE_EXTRACT", "DATE_FORMAT", "DATE_PARSE", "DATE_TRUNC", "NOW",
  "CIDR_MATCH", "IP_PREFIX",
  "ABS", "ACOS", "ASIN", "ATAN", "ATAN2", "CBRT", "CEIL", "COS", "COSH",
  "DEGREES", "E", "EXP", "EXPM1", "FLOOR", "LOG", "LOG10", "PI", "POWER",
  "RADIANS", "RANDOM", "ROUND", "SIGN", "SIN", "SINH", "SQRT", "TAN", "TANH",
  "ASCII", "BASE64_DECODE", "BASE64_ENCODE", "CONCAT", "INSERT", "LCASE",
  "LEFT", "LENGTH", "LOCATE", "LTRIM", "OCTET_LENGTH", "POSITION",
  "REGEX_EXTRACT", "REGEX_REPLACE", "REPEAT", "REPLACE", "REVERSE", "RIGHT",
  "RTRIM", "SPACE", "SUBSTR", "TRIM", "UCASE",
  "TO_BOOLEAN", "TO_CARTESIANPOINT", "TO_CARTESIANSHAPE", "TO_DATEPERIOD",
  "TO_DATETIME", "TO_DATE_NANOS", "TO_DEGREES", "TO_DOUBLE", "TO_GEOPOINT",
  "TO_GEOSHAPE", "TO_INTEGER", "TO_IP", "TO_LONG", "TO_RADIANS", "TO_STRING",
  "TO_TIMEDURATION", "TO_UNSIGNED_LONG", "TO_VERSION",
  "KQL", "MATCH", "QSTR",
  "ST_DISTANCE", "ST_INTERSECTS", "ST_DISJOINT", "ST_CONTAINS", "ST_WITHIN"]

/-- A prompt_toolkit `Completion`.  `start_position` is the insertion offset
(how many characters before the cursor the inserted text replaces); `style`
keeps the style string of the source, which distinguishes the three candidate
categories: `"fg:ansiblue"` for index names, `"fg:ansired"` for the error
candidate, and `""` (default) for keywords from the `WordCompleter`. -/
structure Completion where
  text : List Char
  start_position : Int
  style : List Char
deriving DecidableEq, Repr

/-- A word-constituent character for prompt_toolkit's default word pattern
(`WORD=False`): alphanumeric or underscore. -/
def isWordChar (c : Char) : Bool := c.isAlphanum || c = '_'

/-- prompt_toolkit `document.get_word_before_cursor(WORD=True)`: the maximal
trailing run of non-whitespace characters of the text before the cursor. -/
def wordBeforeCursorWORD (textBefore : List Char) : List Char :=
  (textBefore.reverse.takeWhile (fun c => !isPySpace c)).reverse

/-- prompt_toolkit `document.get_word_before_cursor()` with the default word
pattern `([a-zA-Z0-9_]+|[^a-zA-Z0-9_\s]+)`: the maximal trailing run of
word characters, or — when the character before the cursor is a non-word,
non-space symbol — the maximal trailing run of such symbols. -/
def wordBeforeCursorDefault (textBefore : List Char) : List Char :=
  match textBefore.reverse with
  | [] => []
  | c :: _ =>
    if isWordChar c then
      (textBefore.reverse.takeWhile isWordChar).reverse
    else if !isPySpace c then
      (textBefore.reverse.takeWhile (fun d => !isWordChar d && !isPySpace d)).reverse
    else []

/-- prompt_toolkit `WordCompleter(ESQL_KEYWORDS, ignore_case=True)` applied to
the text before the cursor: every keyword whose lowercase form starts with the
lowercased current word yields a `Completion` replacing that word. -/
def wordCompleterCompletions (textBefore : List Char) : List Completion :=
  let word := pyLower (wordBeforeCursorDefault textBefore)
  (ESQL_KEYWORDS.map String.toList).filterMap (fun kw =>
    if word.isPrefixOf (pyLower kw) then
      some ⟨kw, -(word.length : Int), []⟩
    else none)

/-- Outcome of the synchronous index listing
`es_client.cat.indices(format="json", h="index")`: either the list of index
names, or one of the two exception types the completer catches. -/
inductive CatIndices where
  | ok (names : List (List Char))
  | connError (msg : List Char)
  | authError (msg : List Char)
deriving DecidableEq, Repr

/-- `ESQLCompleter.get_completions` of `cli.py`, lines 76–108, with the
document state given by the text before the cursor and the index listing by
`svc`.  Mirrors the source: uppercase the text before the cursor; if the
string `"FROM "` (with trailing space) is a member of the last two
whitespace-split tokens, consult the index listing (blue candidates whose name
starts with the WORD before the cursor, offset `-len(word)`; on
connection/authentication failure a single red error candidate at offset 0);
then always yield the keyword completions of the `WordCompleter`. -/
def get_completions (svc : CatIndices) (textBefore : List Char) : List Completion :=
  let text := pyUpper textBefore
  let word := wordBeforeCursorWORD textBefore
  let fromPart : List Completion :=
    if "FROM ".toList ∈ last2 (pySplit text) then
      match svc with
      | .ok names =>
        (names.filter (fun n => word.isPrefixOf n)).map
          (fun n => ⟨n, -(word.length : Int), "fg:ansiblue".toList⟩)
      | .connError m =>
        [⟨"Error fetching indices: ".toList ++ m, 0, "fg:ansired".toList⟩]
      | .authError m =>
        [⟨"Error fetching indices: ".toList ++ m, 0, "fg:ansired".toList⟩]
    else []
  fromPart ++ wordCompleterCompletions textBefore

/-- The membership test guarding the index-name branch is false for every
text: `"FROM "` contains a space, and no whitespace-split token does. -/
theorem from_guard_false (textBefore : List Char) :
    "FROM ".toList ∉ last2 (pySplit (pyUpper textBefore)) := by
  intro h
  have hsub : "FROM ".toList ∈ pySplit (pyUpper textBefore) := by
    simp only [last2] at h
    exact List.mem_of_mem_drop h
  have hsp := pySplit_no_space (pyUpper textBefore) _ hsub ' ' (by decide)
  exact absurd hsp (by decide)

/-- C2: for every document text and cursor position, the condition guarding
the index-name branch — `"FROM "` (with trailing space) being a member of the
last two whitespace-split tokens of the uppercased text before the cursor —
is false, because whitespace-split tokens never contain a space; hence
`get_completions` never consults the index listing and yields exactly the
static-keyword completions for every input, whatever the service would
answer. -/
theorem index_branch_unreachable (svc : CatIndices) (textBefore : List Char) :
    "FROM ".toList ∉ last2 (pySplit (pyUpper textBefore))
    ∧ get_completions svc textBefore = wordCompleterCompletions textBefore := by
  refine ⟨from_guard_false textBefore, ?_⟩
  simp only [get_completions]
  rw [if_neg (from_guard_false textBefore)]
  exact List.nil_append _

/-- C1: evaluation at the claim's input.  With the text before the cursor
`"FROM lo"` (whose last two tokens contain `FROM`) and a reachable service
listing `["logs-1","logs-2","metrics"]`, `get_completions` yields no
index-name candidate at all — only the four keyword completions — because the
guard compares the tokens against `"FROM "` with a trailing space, which can
never be a whitespace-split token. -/
theorem from_lo_no_index_candidates :
    get_completions (.ok ["logs-1".toList, "logs-2".toList, "metrics".toList])
        ("FROM lo".toList)
      = [⟨"LOOKUP".toList, -2, []⟩, ⟨"LOG".toList, -2, []⟩,
         ⟨"LOG10".toList, -2, []⟩, ⟨"LOCATE".toList, -2, []⟩] := by decide

/-- C6: evaluation at the claim's input.  With the text before the cursor
`"FROM lo"` and an index listing that fails with a connection error,
`get_completions` yields the keyword completions only: the error candidate of
lines 99–104 of `cli.py` is never produced, because the index-name branch
(and with it its exception handler) is unreachable.  The sequence does still
contain every case-insensitively prefix-matching keyword candidate. -/
theorem from_lo_conn_error_no_error_candidate :
    get_completions (.connError "connection refused".toList) ("FROM lo".toList)
      = [⟨"LOOKUP".toList, -2, []⟩, ⟨"LOG".toList, -2, []⟩,
         ⟨"LOG10".toList, -2, []⟩, ⟨"LOCATE".toList, -2, []⟩] := by decide

/-! ## Result formatter (`cli.py`, `print_results`) -/

/-- A scalar JSON cell value of a query response. -/
inductive Value where
  | null
  | int (n : Int)
  | str (s : List Char)
  | bool (b : Bool)
deriving DecidableEq, Repr

/-- Python `str()` on a scalar cell value: `None` renders as `"None"`,
booleans as `"True"`/`"False"`, integers by their decimal representation,
strings as themselves. -/
def pyStr : Value → List Char
  | .null => "None".toList
  | .int n => (toString n).toList
  | .str s => s
  | .bool b => if b then "True".toList else "False".toList

/-- One entry of the response's `columns` array: `{"name": ...}`. -/
structure Column where
  name : List Char
deriving DecidableEq, Repr

/-- A query response body: `{"columns": [{"name": ...}, ...],
"values": [[...], ...]}`. -/
structure Response where
  columns : List Column
  values : List (List Value)
deriving DecidableEq, Repr

/-- What `print_results` puts on the console: either the yellow
"no results" notice, or a table with headers and stringified body rows. -/
inductive RenderOutput where
  | noResults (notice : List Char)
  | table (headers : List (List Char)) (rows : List (List (List Char)))
deriving DecidableEq, Repr

/-- The notice printed when the query returned no rows (`cli.py` line 120). -/
def noResultsNotice : List Char :=
  "[yellow]Query returned no results.[/yellow]".toList

/-- `print_results` of `cli.py`, lines 111–138: extract the column names, and
if `values` is empty print the "no results" notice; otherwise build a table
whose headers are the column names in order and whose body rows are the rows
in order with `str()` applied to every cell.  The pandas `DataFrame` / Rich
`Table` round-trip of the source is modelled as an order-preserving
pass-through of the cell values with Python `str()` (`pyStr`) applied to each
cell. -/
def print_results (response : Response) : RenderOutput :=
  let columns := response.columns.map Column.name
  let rows := response.values
  if rows = [] then .noResults noResultsNotice
  else .table columns (rows.map (fun row => row.map pyStr))

/-- C9: for every response with non-empty rows, `print_results` builds a table
whose headers are the response's columns in original order and whose body
rows are the rows in original order with every scalar value converted to its
string representation; and concretely, on `{columns:["a","b"],
rows:[[1,"x"],[null,"y"]]}` it produces a two-row, two-column table whose
null cell is the literal placeholder string `"None"`, not omitted. -/
theorem render_nonempty_rows (response : Response) (h : response.values ≠ []) :
    print_results response
      = .table (response.columns.map Column.name)
          (response.values.map (fun row => row.map pyStr))
    ∧ print_results ⟨[⟨"a".toList⟩, ⟨"b".toList⟩],
          [[.int 1, .str "x".toList], [.null, .str "y".toList]]⟩
      = .table ["a".toList, "b".toList]
          [["1".toList, "x".toList], ["None".toList, "y".toList]] := by
  constructor
  · simp only [print_results]
    rw [if_neg h]
  · decide

/-- Witness for C9 at the claim's concrete response. -/
theorem render_nonempty_rows_witness :
    print_results ⟨[⟨"a".toList⟩, ⟨"b".toList⟩],
        [[.int 1, .str "x".toList], [.null, .str "y".toList]]⟩
      = .table ["a".toList, "b".toList]
          [["1".toList, "x".toList], ["None".toList, "y".toList]] :=
  (render_nonempty_rows ⟨[⟨"a".toList⟩, ⟨"b".toList⟩],
      [[.int 1, .str "x".toList], [.null, .str "y".toList]]⟩ (by decide)).2

/-- C10: for every response whose rows sequence is empty, `print_results`
emits the "no results" notice and no table, regardless of the columns. -/
theorem render_empty_rows (response : Response) (h : response.values = []) :
    print_results response = .noResults noResultsNotice := by
  simp only [print_results]
  rw [if_pos h]

/-- Witness for C10 at `{columns:["a","b"], rows:[]}`. -/
theorem render_empty_rows_witness :
    print_results ⟨[⟨"a".toList⟩, ⟨"b".toList⟩], []⟩
      = .noResults noResultsNotice :=
  render_empty_rows ⟨[⟨"a".toList⟩, ⟨"b".toList⟩], []⟩ rfl

/-! ## Session loop (`cli.py`, `main`, lines 193–220)

The prompt is modelled by a script of `PromptEvent`s: a line of input, or the
exception `session.prompt` raises on Ctrl-C (`KeyboardInterrupt`) or Ctrl-D
(`EOFError`).  `KeyboardInterrupt` derives from `BaseException`, not
`Exception`, so it escapes both inner handlers and reaches the outer
`except (KeyboardInterrupt, EOFError)`; `EOFError` derives from `Exception`
and is caught by the inner blanket `except Exception` handler, which prints
and continues the loop.  The query executor `es_client.esql.query` is a
function from the query string to an `ExecResult`. -/

/-- One interaction at the prompt: a line of input, or the exception the
prompt raises for Ctrl-C / Ctrl-D. -/
inductive PromptEvent where
  | line (q : List Char)
  | ctrlC
  | ctrlD
deriving DecidableEq, Repr

/-- Outcome of `es_client.esql.query(query=query)`: a response body, an
`ApiError` (caught by the first inner handler), any other `Exception`
(caught by the blanket inner handler), or a `KeyboardInterrupt` delivered
while the query is executing (caught by no inner handler). -/
inductive ExecResult where
  | ok (resp : Response)
  | apiError (msg : List Char)
  | otherError (msg : List Char)
  | interrupt
deriving DecidableEq, Repr

/-- Observable actions of the loop, in order: console prints, queries handed
to the executor, rendered results, and the client release of the `finally`
block. -/
inductive Effect where
  | printed (s : List Char)
  | executed (q : List Char)
  | rendered (out : RenderOutput)
  | closedClient
deriving DecidableEq, Repr

/-- How the `while True` loop was left: by the `break` of an exit command, by
an exception escaping to the outer handlers (`KeyboardInterrupt`), or because
the event script ran out (a model artifact: the real prompt would block). -/
inductive LoopEnd where
  | exitCommand
  | interrupted
  | outOfScript
deriving DecidableEq, Repr

/-- Text printed by `except ApiError as e` (line 207), before `e.message`. -/
def apiErrorHead : List Char := "[bold red]API Error:[/bold red] ".toList

/-- Text printed by `except Exception as e` (line 209), before `str(e)`
(empty for a bare `EOFError`). -/
def unexpectedErrorHead : List Char :=
  "[bold red]An unexpected error occurred:[/bold red] ".toList

/-- The farewell printed by the `finally` block (line 217). -/
def farewell : List Char := "\n[cyan]Exiting ESQL CLI. Goodbye![/cyan]".toList

/-- The `while True` loop of `main` (`cli.py` lines 193–209) over an event
script.  A line equal (lowercased, stripped) to `exit`/`quit` breaks; a blank
line continues; otherwise the query is executed and the result rendered or
the error printed by the inner handlers.  `ctrlC` escapes the loop
(`KeyboardInterrupt` is not an `Exception`); `ctrlD` (`EOFError`) is caught
by the blanket `except Exception` handler, which prints and continues. -/
def sessionLoop (exec : List Char → ExecResult) :
    List PromptEvent → List Effect × LoopEnd
  | [] => ([], .outOfScript)
  | .ctrlC :: _ => ([], .interrupted)
  | .ctrlD :: rest =>
    let r := sessionLoop exec rest
    (.printed unexpectedErrorHead :: r.1, r.2)
  | .line q :: rest =>
    if pyStrip (pyLower q) = "exit".toList ∨ pyStrip (pyLower q) = "quit".toList then
      ([], .exitCommand)
    else if pyStrip q = [] then sessionLoop exec rest
    else
      match exec q with
      | .ok resp =>
        let r := sessionLoop exec rest
        (.executed q :: .rendered (print_results resp) :: r.1, r.2)
      | .apiError m =>
        let r := sessionLoop exec rest
        (.executed q :: .printed (apiErrorHead ++ m) :: r.1, r.2)
      | .otherError m =>
        let r := sessionLoop exec rest
        (.executed q :: .printed (unexpectedErrorHead ++ m) :: r.1, r.2)
      | .interrupt => ([.executed q], .interrupted)

/-- `main`'s loop together with its outer handlers and `finally` block
(lines 211–220): an escaping `KeyboardInterrupt`/`EOFError` is swallowed, and
the `finally` block prints the farewell and closes the client on every path
out of the loop. -/
def mainSession (exec : List Char → ExecResult) (script : List PromptEvent) :
    List Effect × LoopEnd :=
  let r := sessionLoop exec script
  (r.1 ++ [.printed farewell, .closedClient], r.2)

/-- Lowercasing a character does not change whether it is whitespace. -/
theorem isPySpace_pyLowerChar (c : Char) :
    isPySpace (pyLowerChar c) = isPySpace c := by
  unfold pyLowerChar
  split <;> rfl

/-- Python `s.lower().strip()` equals `s.strip().lower()`: stripping commutes
with lowercasing. -/
theorem pyStrip_pyLower (s : List Char) :
    pyStrip (pyLower s) = pyLower (pyStrip s) := by
  have hpf : (isPySpace ∘ pyLowerChar) = isPySpace := funext isPySpace_pyLowerChar
  simp only [pyStrip, pyLower, ← List.map_reverse, List.dropWhile_map, hpf]

/-- A one-column, one-row response used as a concrete successful query result. -/
def respRow1 : Response := ⟨[⟨"one".toList⟩], [[.int 1]]⟩

/-- A query executor for which every query succeeds with `respRow1`. -/
def execC3 : List Char → ExecResult := fun _ => .ok respRow1

/-- C3: evaluation at the failing input.  A Ctrl-D (`EOFError`) delivered
while Prompting does not transition the loop to Closing: the inner blanket
`except Exception` handler catches it, prints the unexpected-error message,
and the loop goes on to prompt for — and execute — the next line.  (The
farewell and the client release of the `finally` block do still run at the
end of every path, as the trailing effects show.) -/
theorem ctrl_d_does_not_close :
    mainSession execC3 [.ctrlD, .line ("ROW 1".toList)]
      = ([.printed unexpectedErrorHead,
          .executed ("ROW 1".toList),
          .rendered (.table ["one".toList] [["1".toList]]),
          .printed farewell, .closedClient], .outOfScript) := by decide

/-- The error message the inner handlers of the loop print for a failed
execution: the `ApiError` handler (line 207) prints `e.message` after its
header, the blanket `except Exception` handler (line 209) — which is the one
that catches transport errors such as `elastic_transport.ConnectionError` —
prints `str(e)` after its header.  (The other two cases do not reach a
handler and are never produced under this function's use.) -/
def errorDiag : ExecResult → List Char
  | .apiError m => apiErrorHead ++ m
  | .otherError m => unexpectedErrorHead ++ m
  | .ok _ => []
  | .interrupt => []

/-- C7: for every query whose execution raises an executor or transport
error — an `ApiError`, or any other `Exception` such as a transport
`ConnectionError`, which takes the blanket handler — the loop catches the
error at the loop boundary, prints the formatted error message, and returns
to Prompting: a subsequent valid query in the same run is still executed and
its response rendered, and the loop goes on with the remaining script. -/
theorem query_error_loop_continues (exec : List Char → ExecResult)
    (q q2 m : List Char) (resp : Response) (rest : List PromptEvent)
    (hq_exit : ¬(pyStrip (pyLower q) = "exit".toList ∨
      pyStrip (pyLower q) = "quit".toList))
    (hq_blank : pyStrip q ≠ [])
    (hq_err : exec q = .apiError m ∨ exec q = .otherError m)
    (h2_exit : ¬(pyStrip (pyLower q2) = "exit".toList ∨
      pyStrip (pyLower q2) = "quit".toList))
    (h2_blank : pyStrip q2 ≠ [])
    (h2_ok : exec q2 = .ok resp) :
    sessionLoop exec (.line q :: .line q2 :: rest)
      = (.executed q :: .printed (errorDiag (exec q))
          :: .executed q2 :: .rendered (print_results resp)
          :: (sessionLoop exec rest).1,
         (sessionLoop exec rest).2) := by
  have h2 : sessionLoop exec (.line q2 :: rest)
      = (.executed q2 :: .rendered (print_results resp)
          :: (sessionLoop exec rest).1, (sessionLoop exec rest).2) := by
    rw [sessionLoop, if_neg h2_exit, if_neg h2_blank, h2_ok]
  rcases hq_err with h | h
  · have h1 : sessionLoop exec (.line q :: .line q2 :: rest)
        = (.executed q :: .printed (apiErrorHead ++ m)
            :: (sessionLoop exec (.line q2 :: rest)).1,
           (sessionLoop exec (.line q2 :: rest)).2) := by
      rw [sessionLoop, if_neg hq_exit, if_neg hq_blank, h]
    rw [h1, h2, h]
    rfl
  · have h1 : sessionLoop exec (.line q :: .line q2 :: rest)
        = (.executed q :: .printed (unexpectedErrorHead ++ m)
            :: (sessionLoop exec (.line q2 :: rest)).1,
           (sessionLoop exec (.line q2 :: rest)).2) := by
      rw [sessionLoop, if_neg hq_exit, if_neg hq_blank, h]
    rw [h1, h2, h]
    rfl

/-- A query executor where `BAD QUERY` fails with an `ApiError`, `DOWN`
fails with a (transport) `ConnectionError` caught as a plain `Exception`,
and every other query succeeds. -/
def execC7 : List Char → ExecResult := fun q =>
  if q = "BAD QUERY".toList then .apiError "parse error".toList
  else if q = "DOWN".toList then .otherError "Connection error".toList
  else .ok respRow1

/-- Witness for C7, exercising both error kinds: a query failing with an
`ApiError`, and one failing with a transport error, each followed by a valid
query that is still executed and rendered. -/
theorem query_error_loop_continues_witness :
    sessionLoop execC7 [.line ("BAD QUERY".toList), .line ("ROW 1".toList)]
      = ([.executed ("BAD QUERY".toList),
          .printed (apiErrorHead ++ "parse error".toList),
          .executed ("ROW 1".toList),
          .rendered (print_results respRow1)], .outOfScript)
    ∧ sessionLoop execC7 [.line ("DOWN".toList), .line ("ROW 1".toList)]
      = ([.executed ("DOWN".toList),
          .printed (unexpectedErrorHead ++ "Connection error".toList),
          .executed ("ROW 1".toList),
          .rendered (print_results respRow1)], .outOfScript) :=
  ⟨(query_error_loop_continues execC7 ("BAD QUERY".toList) ("ROW 1".toList)
      ("parse error".toList) respRow1 []
      (by decide) (by decide) (Or.inl (by decide))
      (by decide) (by decide) (by decide)).trans (by decide),
   (query_error_loop_continues execC7 ("DOWN".toList) ("ROW 1".toList)
      ("Connection error".toList) respRow1 []
      (by decide) (by decide) (Or.inr (by decide))
      (by decide) (by decide) (by decide)).trans (by decide)⟩

/-- C8: any input that after trimming case-insensitively equals `exit` or
`quit` terminates the session; any empty or whitespace-only input loops back
to Prompting without calling the executor; and the input sequence
`["  ", "exit"]` performs zero query executions (the effect list is empty)
and terminates cleanly via the exit command, for every executor. -/
theorem exit_blank_handling (exec : List Char → ExecResult)
    (q : List Char) (rest : List PromptEvent) :
    (pyLower (pyStrip q) = "exit".toList ∨ pyLower (pyStrip q) = "quit".toList →
      sessionLoop exec (.line q :: rest) = ([], .exitCommand))
    ∧ (pyStrip q = [] → sessionLoop exec (.line q :: rest) = sessionLoop exec rest)
    ∧ sessionLoop exec [.line ("  ".toList), .line ("exit".toList)]
        = ([], .exitCommand) := by
  refine ⟨?_, ?_, ?_⟩
  · intro h
    have hc : pyStrip (pyLower q) = "exit".toList ∨
        pyStrip (pyLower q) = "quit".toList := by
      rw [pyStrip_pyLower]
      exact h
    rw [sessionLoop, if_pos hc]
  · intro h
    have hc : ¬(pyStrip (pyLower q) = "exit".toList ∨
        pyStrip (pyLower q) = "quit".toList) := by
      rw [pyStrip_pyLower, h]
      decide
    rw [sessionLoop, if_neg hc, if_pos h]
  · have e1 : sessionLoop exec [.line ("  ".toList), .line ("exit".toList)]
        = sessionLoop exec [.line ("exit".toList)] := by
      rw [sessionLoop, if_neg (by decide), if_pos (by decide)]
    rw [e1, sessionLoop, if_pos (by decide)]

/-! ## Environment variables (`cli.py` lines 156–171, `esql.py` lines 57–65) -/

/-- The connection the interactive `main` opens: host list and optional API
key of the `Elasticsearch(...)` constructor call. -/
structure CliConn where
  hosts : List (List Char)
  api_key : Option (List Char)
deriving DecidableEq, Repr

/-- The default base URL of the interactive mode's fallback branch. -/
def localhostUrl : List Char := "http://localhost:9200".toList

/-- Lines 156–171 of `cli.py`: `if es_url and es_api_key` — both variables
present and non-empty (Python truthiness) — connect to `es_url` with the API
key; otherwise connect unauthenticated to `http://localhost:9200`. -/
def cliConnect (es_url es_api_key : Option (List Char)) : CliConn :=
  match es_url, es_api_key with
  | some u, some k =>
    if !u.isEmpty && !k.isEmpty then ⟨[u], some k⟩ else ⟨[localhostUrl], none⟩
  | _, _ => ⟨[localhostUrl], none⟩

/-- The error printed by `esql.py` when `ELASTICSEARCH_URL` is missing. -/
def urlMissingMsg : List Char :=
  ("Error: Elasticsearch URL not found. " ++
    "Please set ELASTICSEARCH_URL in your .env file.").toList

/-- The error printed by `esql.py` when `ELASTICSEARCH_API_KEY` is missing. -/
def keyMissingMsg : List Char :=
  "Error: API key not found. Please set ELASTICSEARCH_API_KEY in your .env file.".toList

/-- Lines 57–65 of `esql.py`'s `main`: a falsy (absent or empty)
`ELASTICSEARCH_URL` or `ELASTICSEARCH_API_KEY` prints an error and exits with
code 1; otherwise both values are handed on to `esql_query`. -/
def esqlMainEnv (elasticsearch_url api_key : Option (List Char)) :
    Except (List Char × Nat) (List Char × List Char) :=
  match elasticsearch_url with
  | none => .error (urlMissingMsg, 1)
  | some u =>
    if u.isEmpty then .error (urlMissingMsg, 1)
    else
      match api_key with
      | none => .error (keyMissingMsg, 1)
      | some k =>
        if k.isEmpty then .error (keyMissingMsg, 1) else .ok (u, k)

/-- C4, counterexample: in one-shot CLI mode, an absent `ELASTICSEARCH_URL`
does not default to `http://localhost:9200` — even with an API key present,
the process prints an error and exits with code 1. -/
theorem url_absent_oneshot_exits :
    esqlMainEnv none (some ("k".toList)) = .error (urlMissingMsg, 1) := rfl

/-- C4 as amended: in interactive mode an absent `ELASTICSEARCH_URL` (or an
absent `ELASTICSEARCH_API_KEY`, even with a URL set) falls back to an
unauthenticated connection to `http://localhost:9200`, and both present
yields an authenticated connection to the given URL; in one-shot CLI mode the
absence of either variable prints an error and exits with code 1 — the
localhost default exists only in interactive mode. -/
theorem env_variable_fallbacks (url key : List Char)
    (hu : url ≠ []) (hk : key ≠ []) :
    cliConnect none (some key) = ⟨[localhostUrl], none⟩
    ∧ cliConnect none none = ⟨[localhostUrl], none⟩
    ∧ cliConnect (some url) none = ⟨[localhostUrl], none⟩
    ∧ cliConnect (some url) (some key) = ⟨[url], some key⟩
    ∧ esqlMainEnv none (some key) = .error (urlMissingMsg, 1)
    ∧ esqlMainEnv none none = .error (urlMissingMsg, 1)
    ∧ esqlMainEnv (some url) none = .error (keyMissingMsg, 1) := by
  have hu' : url.isEmpty = false := by simpa [List.isEmpty_iff] using hu
  have hk' : key.isEmpty = false := by simpa [List.isEmpty_iff] using hk
  refine ⟨rfl, rfl, rfl, ?_, rfl, rfl, ?_⟩
  · simp [cliConnect, hu', hk']
  · simp [esqlMainEnv, hu']

/-- Witness for C4's amended theorem at `url = "http://es:9200"`,
`key = "secret"`. -/
theorem env_variable_fallbacks_witness :
    cliConnect (some ("http://es:9200".toList)) (some ("secret".toList))
      = ⟨["http://es:9200".toList], some ("secret".toList)⟩
    ∧ esqlMainEnv (some ("http://es:9200".toList)) none
      = .error (keyMissingMsg, 1) :=
  ⟨(env_variable_fallbacks ("http://es:9200".toList) ("secret".toList)
      (by decide) (by decide)).2.2.2.1,
   (env_variable_fallbacks ("http://es:9200".toList) ("secret".toList)
      (by decide) (by decide)).2.2.2.2.2.2⟩

/-! ## One-shot query executor (`esql.py`, `esql_query`, lines 16–47) -/

/-- The POST request `esql_query` constructs: endpoint `<base_url>/_query`,
headers `Content-Type: application/json` and `Authorization: ApiKey <key>`,
and JSON payload `{"query": <queryText>}` (kept as its `query` field). -/
structure Request where
  url : List Char
  authorization : List Char
  contentType : List Char
  queryBody : List Char
deriving DecidableEq, Repr

/-- The request of lines 20–29 of `esql.py`. -/
def buildRequest (elasticsearch_url query api_key : List Char) : Request :=
  ⟨elasticsearch_url ++ "/_query".toList,
   "ApiKey ".toList ++ api_key,
   "application/json".toList,
   query⟩

/-- What `requests.post` produces: a response (status code, body text, and
the parsed JSON body when the body parses as a response object), or a raised
transport exception. -/
inductive HttpOutcome where
  | response (status : Nat) (text : List Char) (jsonBody : Option Response)
  | transportError (msg : List Char)
deriving DecidableEq, Repr

/-- A pandas DataFrame as `json_to_dataframe` builds it: the column names in
order and the row values. -/
structure DataFrame where
  columns : List (List Char)
  values : List (List Value)
deriving DecidableEq, Repr

/-- `json_to_dataframe` of `esql.py`, lines 10–14. -/
def json_to_dataframe (data : Response) : DataFrame :=
  ⟨data.columns.map Column.name, data.values⟩

/-- `str(http_err)` of the `HTTPError` that `raise_for_status` raises,
abbreviated to the status code; the claims depend only on the raw response
body text appended after it. -/
def httpErrText (status : Nat) : List Char := (toString status).toList

/-- Message of the exception `response.json()` raises on an unparsable body. -/
def jsonParseFailMsg : List Char := "Expecting value".toList

/-- Outcome of `esql_query`: the DataFrame on success, or `sys.exit(1)` after
printing the diagnostic it carries. -/
inductive EsqlOutcome where
  | ok (df : DataFrame)
  | exit1 (diag : List Char)
deriving DecidableEq, Repr

/-- `esql_query` of `esql.py`, lines 16–47, over a network model `net`: POST
`buildRequest`; `raise_for_status` raises `HTTPError` exactly for status
codes 400–599, caught by the first handler which prints the error and the raw
response body text and exits 1; any other exception (transport failure, JSON
parse failure) is caught by the blanket handler which prints and exits 1;
otherwise the parsed body becomes a DataFrame. -/
def esql_query (net : Request → HttpOutcome)
    (elasticsearch_url query api_key : List Char) : EsqlOutcome :=
  match net (buildRequest elasticsearch_url query api_key) with
  | .transportError m => .exit1 ("An error occurred: ".toList ++ m)
  | .response status text jsonBody =>
    if 400 ≤ status ∧ status < 600 then
      .exit1 ("HTTP error occurred: ".toList ++ httpErrText status
        ++ " - ".toList ++ text)
    else
      match jsonBody with
      | some data => .ok (json_to_dataframe data)
      | none => .exit1 ("An error occurred: ".toList ++ jsonParseFailMsg)

/-- C5, counterexample: a non-2xx response is not always surfaced as an
error — a `300 Multiple Choices` response with a parseable body passes
`raise_for_status` (which raises only for 400–599) and is returned as a
successful DataFrame. -/
theorem non2xx_not_always_surfaced :
    esql_query (fun _ => .response 300 ("multiple choices".toList) (some respRow1))
        ("http://localhost:9200".toList) ("ROW 1".toList) ("k".toList)
      = .ok (json_to_dataframe respRow1) := by decide

/-- C5 as amended: `esql_query` posts `{"query": <queryText>}` to
`<base_url>/_query` with header `Authorization: ApiKey <key>`; every 4xx or
5xx response (exactly those for which `raise_for_status` raises) is surfaced
as a printed HTTP-error diagnostic that includes the raw response body text,
with process exit code 1; every transport exception is surfaced as a printed
generic diagnostic with exit code 1. -/
theorem esql_query_error_contract (net : Request → HttpOutcome)
    (u q k t m : List Char) (status : Nat) (jsonBody : Option Response) :
    buildRequest u q k
      = ⟨u ++ "/_query".toList, "ApiKey ".toList ++ k,
         "application/json".toList, q⟩
    ∧ (net (buildRequest u q k) = .response status t jsonBody →
        400 ≤ status → status < 600 →
        esql_query net u q k
          = .exit1 ("HTTP error occurred: ".toList ++ httpErrText status
              ++ " - ".toList ++ t))
    ∧ (net (buildRequest u q k) = .transportError m →
        esql_query net u q k = .exit1 ("An error occurred: ".toList ++ m)) := by
  refine ⟨rfl, ?_, ?_⟩
  · intro h h4 h6
    rw [esql_query, h]
    dsimp only
    rw [if_pos ⟨h4, h6⟩]
  · intro h
    rw [esql_query, h]

end EsqlClient
